import Mathlib

/-!
Verification development for the data-conversion pipeline of the blog
repository (notebook 2022-06-24-convert-input-data): three input adapters
(delimited text, legacy Matlab binary, HDF5-backed Matlab binary) feeding
one canonical HDF5 writer.  Numeric values are modelled as exact rationals
standing for 32-bit float values, with an explicit not-a-number marker.
-/

set_option autoImplicit false

namespace AcoularConvert

/-- A 32-bit float value as stored in the pipeline.  Values are modelled as
exact rationals; `nan` is the not-a-number value that the text reader
produces for an unparsable field. -/
inductive F32 where
  | nan : F32
  | val : Rat → F32
  deriving DecidableEq

/-- A two-dimensional numeric array (the spec's SampleMatrix): a shape
together with a total entry function, the shallow embedding of a numpy
float32 array.  Axis 0 is the sample index, axis 1 the channel index. -/
structure SampleMatrix where
  rows : Nat
  cols : Nat
  ent : Nat → Nat → F32

/-- numpy transposition (the .T property): swap the two axes. -/
def SampleMatrix.T (m : SampleMatrix) : SampleMatrix :=
  { rows := m.cols, cols := m.rows, ent := fun i j => m.ent j i }

/-- Build a matrix from a list of rows (row count is the list length, column
count the first row's length, as numpy does for a rectangular list of
lists); out-of-range reads give `nan`. -/
def SampleMatrix.ofRows (rs : List (List F32)) : SampleMatrix :=
  { rows := rs.length
    cols := (rs.headD []).length
    ent := fun i j => (rs.getD i []).getD j F32.nan }

/-- Split a character list at every occurrence of `sep` (model of splitting
a text line on a delimiter; the result has one more part than there are
separators, so empty fields are kept). -/
def splitOnChar (sep : Char) : List Char → List (List Char)
  | [] => [[]]
  | c :: rest =>
    let r := splitOnChar sep rest
    if c = sep then [] :: r else (c :: r.headD []) :: r.tail

/-- Value of a digit string, most significant digit first. -/
def digitsVal (cs : List Char) : Nat :=
  cs.foldl (fun a c => a * 10 + (c.toNat - 48)) 0

/-- A nonempty run of decimal digits. -/
def allDigits (cs : List Char) : Bool :=
  !cs.isEmpty && cs.all Char.isDigit

/-- Powers of ten, by structural recursion so that the kernel evaluates
them directly. -/
def pow10 : Nat → Nat
  | 0 => 1
  | n + 1 => 10 * pow10 n

/-- Parse an unsigned decimal mantissa: digits with an optional single
decimal point and at least one digit overall.  The result is a pair
(n, k) denoting the value n divided by the k-th power of ten. -/
def parseMantissa (cs : List Char) : Option (Nat × Nat) :=
  match splitOnChar '.' cs with
  | [ip] => if allDigits ip then some (digitsVal ip, 0) else none
  | [ip, fp] =>
    if (ip.all Char.isDigit && fp.all Char.isDigit) && (!ip.isEmpty || !fp.isEmpty) then
      some (digitsVal ip * pow10 fp.length + digitsVal fp, fp.length)
    else none
  | _ => none

/-- Parse an optionally signed decimal integer (the exponent part). -/
def parseSignedInt (cs : List Char) : Option Int :=
  match cs with
  | '+' :: rest => if allDigits rest then some ((digitsVal rest : Nat) : Int) else none
  | '-' :: rest => if allDigits rest then some (-((digitsVal rest : Nat) : Int)) else none
  | _ => if allDigits cs then some ((digitsVal cs : Nat) : Int) else none

/-- Whitespace ignored around a numeric field. -/
def isSpaceChar (c : Char) : Bool :=
  c = ' ' || c = '\t' || c = '\r'

/-- Strip surrounding whitespace from a field. -/
def stripSpaces (cs : List Char) : List Char :=
  ((cs.dropWhile isSpaceChar).reverse.dropWhile isSpaceChar).reverse

/-- Model of the field-to-float conversion used by the delimited-text
reader: Python float syntax restricted to finite decimals (optional sign,
decimal mantissa, optional e/E exponent; surrounding whitespace ignored). -/
def parseFloat (cs0 : List Char) : Option Rat :=
  let cs1 := stripSpaces cs0
  let sc : Int × List Char :=
    match cs1 with
    | '+' :: rest => (1, rest)
    | '-' :: rest => (-1, rest)
    | _ => (1, cs1)
  match splitOnChar 'e' (sc.2.map fun c => if c = 'E' then 'e' else c) with
  | [m] =>
    (parseMantissa m).map fun nk => mkRat (sc.1 * Int.ofNat nk.1) (pow10 nk.2)
  | [m, ex] =>
    match parseMantissa m, parseSignedInt ex with
    | some nk, some e =>
      if 0 ≤ e then
        some (mkRat (sc.1 * Int.ofNat nk.1 * Int.ofNat (pow10 e.toNat)) (pow10 nk.2))
      else
        some (mkRat (sc.1 * Int.ofNat nk.1) (pow10 nk.2 * pow10 (-e).toNat))
    | _, _ => none
  | _ => none

instance exceptDecEq {ε α : Type} [DecidableEq ε] [DecidableEq α] :
    DecidableEq (Except ε α)
  | .error e, .error f =>
    if h : e = f then .isTrue (congrArg Except.error h)
    else .isFalse fun c => h (Except.error.inj c)
  | .error _, .ok _ => .isFalse fun c => Except.noConfusion c
  | .ok _, .error _ => .isFalse fun c => Except.noConfusion c
  | .ok a, .ok b =>
    if h : a = b then .isTrue (congrArg Except.ok h)
    else .isFalse fun c => h (Except.ok.inj c)

/-- One parsed field: an unparsable field becomes `nan`, not an error (the
behaviour of the text reader the notebook uses). -/
def parseField (cs : List Char) : F32 :=
  match parseFloat cs with
  | some q => F32.val q
  | none => F32.nan

/-- An error raised by the delimited-text reader: some line has `got` fields
where the first line has `expected`. -/
inductive ParseError where
  | ragged : Nat → Nat → ParseError
  deriving DecidableEq

/-- Field count of one line. -/
def nfields (l : List Char) : Nat :=
  (splitOnChar ',' l).length

/-- The input lines the text reader actually processes: split on newlines,
empty lines skipped. -/
def rawLines (text : List Char) : List (List Char) :=
  (splitOnChar '\n' text).filter fun l => !l.isEmpty

/-- Model of the notebook's delimited-text read, cell 12: numpy genfromtxt
with a comma delimiter and dtype float32.  Every line must have the same
field count as the first line, otherwise the read fails; each field is
converted to a 32-bit float, an unconvertible field yielding `nan`.
Reader options the notebook does not exercise (comment stripping, headers)
are not modelled. -/
def genfromtxt (text : List Char) : Except ParseError (List (List F32)) :=
  match rawLines text with
  | [] => .ok []
  | first :: rest =>
    let ncols := nfields first
    match (first :: rest).find? (fun l => nfields l != ncols) with
    | some l => .error (.ragged (nfields l) ncols)
    | none => .ok ((first :: rest).map fun l => (splitOnChar ',' l).map parseField)

/-- A value of an HDF5 attribute: a string, an integer, or a floating-point
scalar (modelled as an exact rational). -/
inductive AttrVal where
  | str : String → AttrVal
  | int : Int → AttrVal
  | real : Rat → AttrVal
  deriving DecidableEq

/-- Look a key up in an association list (first match wins). -/
def lookupAssoc {α : Type} : List (String × α) → String → Option α
  | [], _ => none
  | (k, v) :: rest, key => if k = key then some v else lookupAssoc rest key

/-- Set a key in an association list: replace the first binding of the key,
or append a new binding when the key is absent. -/
def setAssoc {α : Type} : List (String × α) → String → α → List (String × α)
  | [], key, v => [(key, v)]
  | (k, w) :: rest, key, v =>
    if k = key then (key, v) :: rest else (k, w) :: setAssoc rest key v

/-- A dataset inside an HDF5 container: its payload, whether it is
extensible along axis 0 (an EArray), and its attribute list. -/
structure H5Dataset where
  data : SampleMatrix
  extensible : Bool
  attrs : List (String × AttrVal)

/-- The content of one HDF5 container: a file title and the datasets at its
root (the notebook's files have no nested groups). -/
structure H5File where
  title : String
  datasets : List (String × H5Dataset)

/-- The attribute names that the HDF5 library itself attaches to every
extensible dataset, as shown by the notebook's own attribute enumeration
(cell 10: CLASS, EXTDIM, TITLE, VERSION plus the one user attribute). -/
def systemAttrNames : List String :=
  ["CLASS", "EXTDIM", "TITLE", "VERSION"]

/-- Opening a container for writing (tables.open_file with mode w): a fresh
empty container, truncating whatever was stored at the path before. -/
def tables_open_file_w (title : String) : H5File :=
  { title := title, datasets := [] }

/-- create_earray on the root group: append an extensible float32 dataset
holding the given matrix, carrying the library's system attributes
(CLASS=EARRAY, EXTDIM=0, TITLE empty, VERSION, as cell 10 displays). -/
def create_earray (f : H5File) (name : String) (obj : SampleMatrix) : H5File :=
  { f with
    datasets := f.datasets ++
      [(name,
        { data := obj
          extensible := true
          attrs :=
            [("CLASS", .str "EARRAY"), ("EXTDIM", .int 0),
             ("TITLE", .str ""), ("VERSION", .str "1.1")] })] }

/-- set_attr on a named dataset: store the attribute value under the name,
replacing an existing binding or appending a new one; no validation of the
value is performed. -/
def set_attr (f : H5File) (ds attrName : String) (v : AttrVal) : H5File :=
  { f with
    datasets := f.datasets.map fun kv =>
      if kv.1 = ds then (kv.1, { kv.2 with attrs := setAssoc kv.2.attrs attrName v })
      else kv }

/-- The root dataset stored under a name, if any. -/
def rootDataset (f : H5File) (name : String) : Option H5Dataset :=
  lookupAssoc f.datasets name

/-- Read an attribute of a named dataset back from a container. -/
def get_attr (f : H5File) (ds attrName : String) : Option AttrVal :=
  (rootDataset f ds).bind fun d => lookupAssoc d.attrs attrName

/-- The names of a dataset's attributes, in enumeration order. -/
def attrNames (f : H5File) (ds : String) : Option (List String) :=
  (rootDataset f ds).map fun d => d.attrs.map Prod.fst

/-- The user-defined attributes of a dataset: its attribute list with the
library's system attributes filtered out. -/
def userAttrs (d : H5Dataset) : List (String × AttrVal) :=
  d.attrs.filter fun kv => !systemAttrNames.contains kv.1

/-- A filesystem: destination paths mapped to container contents. -/
def FS : Type := List (String × H5File)

/-- Store a container at a path, overwriting any previous content. -/
def fsInsert (fs : FS) (path : String) (f : H5File) : FS :=
  setAssoc fs path f

/-- The container stored at a path, if any. -/
def lookupFS (fs : FS) (path : String) : Option H5File :=
  lookupAssoc fs path

/-- An error from the container library during writing.  The distinction
matters for the overwrite question: opening with mode w never reports an
existing destination. -/
inductive IOErr where
  | ioFailure : IOErr
  | alreadyExists : IOErr
  deriving DecidableEq

/-- Which of the fallible library calls of the writer succeed on this
invocation (an oracle standing for the underlying write failures the spec
mentions; the notebook itself has no error handling). -/
structure WriteEnv where
  createOk : Bool
  attrOk : Bool
  deriving DecidableEq

/-- What one invocation of the writer leaves behind: the filesystem, whether
the destination handle is still open when control returns, and the
outcome. -/
structure WriterOutcome where
  fs : FS
  handleOpen : Bool
  result : Except IOErr Unit

/-- The content the writer builds on its straight-line path (notebook cell
14): open a fresh container, create the extensible time_data dataset from
the matrix, then set the sample_freq attribute on it. -/
def writeSteps (m : SampleMatrix) (freq : Rat) : H5File :=
  set_attr
    (create_earray (tables_open_file_w "three_sources") "time_data" m)
    "time_data" "sample_freq" (.real freq)

/-- The Canonical Writer, embedded step for step from notebook cell 14:
open destination with mode w (truncating), create_earray, set_attr, close.
The close call is the last straight line of the cell; when an earlier
library call raises, the exception propagates and close never runs, which
is recorded in handleOpen. -/
def writeCanonical (env : WriteEnv) (fs : FS) (path : String)
    (m : SampleMatrix) (freq : Rat) : WriterOutcome :=
  let f0 := tables_open_file_w "three_sources"
  if env.createOk = false then
    { fs := fsInsert fs path f0, handleOpen := true, result := .error .ioFailure }
  else
    let f1 := create_earray f0 "time_data" m
    if env.attrOk = false then
      { fs := fsInsert fs path f1, handleOpen := true, result := .error .ioFailure }
    else
      let f2 := set_attr f1 "time_data" "sample_freq" (.real freq)
      { fs := fsInsert fs path f2, handleOpen := false, result := .ok () }

/-- The environment in which every library call succeeds. -/
def envOK : WriteEnv :=
  { createOk := true, attrOk := true }

/-- Re-read a canonical container: the time_data dataset's matrix together
with its sample_freq attribute. -/
def readCanonical (f : H5File) : Option (SampleMatrix × AttrVal) :=
  (rootDataset f "time_data").bind fun d =>
    (lookupAssoc d.attrs "sample_freq").map fun a => (d.data, a)

/-- Re-read the canonical container stored at a path. -/
def readBack (fs : FS) (path : String) : Option (SampleMatrix × AttrVal) :=
  (lookupFS fs path).bind readCanonical

/-- An error from a binary-matrix adapter: the expected named variable is
absent from the container. -/
inductive FormatError where
  | missingVar : String → FormatError
  deriving DecidableEq

/-- Cast one value to 32-bit float (np.array with dtype float32).  Values
are modelled as exact float32-representable rationals, on which the cast is
the identity. -/
def castF32 (x : F32) : F32 :=
  x

/-- Entrywise float32 cast of a whole array. -/
def castMat (m : SampleMatrix) : SampleMatrix :=
  { rows := m.rows, cols := m.cols, ent := fun i j => castF32 (m.ent i j) }

/-- The delimited-text adapter (notebook cell 12): read the text with
genfromtxt and hold the result as a float32 matrix. -/
def datacsv (text : List Char) : Except ParseError SampleMatrix :=
  (genfromtxt text).map SampleMatrix.ofRows

/-- The variables of a Matlab container: named 2-D numeric arrays. -/
def MatVars : Type := List (String × SampleMatrix)

/-- The legacy-binary adapter (notebook cell 16): loadmat, take the variable
named ans, cast to float32; the orientation is already samples by channels,
so the array is returned as-is. -/
def datamat7 (vars : MatVars) : Except FormatError SampleMatrix :=
  match lookupAssoc vars "ans" with
  | some a => .ok (castMat a)
  | none => .error (.missingVar "ans")

/-- The HDF5-binary adapter (notebook cell 18): read the dataset named ans
from the HDF5-structured Matlab container, cast to float32, and transpose,
because this format stores the matrix transposed relative to the canonical
samples-by-channels orientation. -/
def datamat73 (vars : MatVars) : Except FormatError SampleMatrix :=
  match lookupAssoc vars "ans" with
  | some a => .ok (castMat a).T
  | none => .error (.missingVar "ans")

/-- A conversion error, one constructor per spec error kind; adapter errors
are propagated unchanged. -/
inductive ConvError where
  | parse : ParseError → ConvError
  | format : FormatError → ConvError
  | unsupportedFormat : ConvError
  | ioError : ConvError
  | sourceMismatch : ConvError
  deriving DecidableEq

/-- The content found at a source path, one constructor per source kind.
The sourceMismatch error is an artifact of this sum-type model: it stands
for applying an adapter to bytes of the wrong format, whose precise error
the spec leaves open. -/
inductive SourceData where
  | text : List Char → SourceData
  | matv7 : MatVars → SourceData
  | matv73 : MatVars → SourceData

/-- Hand a parsed matrix to the Canonical Writer and fold its outcome into
the driver's result. -/
def runWrite (env : WriteEnv) (fs : FS) (dest : String)
    (m : SampleMatrix) (freq : Rat) : FS × Except ConvError Unit :=
  let o := writeCanonical env fs dest m freq
  (o.fs, o.result.mapError fun _ => ConvError.ioError)

/-- Modelled from the spec: the Conversion Driver (spec section 4.5), which
the notebook does not define as a function.  It dispatches on the declared
source format tag out of the closed set delimited_text,
legacy_binary_matrix, hdf5_binary_matrix; an unknown tag fails with
UnsupportedFormat before the destination is opened, and adapter or writer
errors propagate unchanged. -/
def convert (env : WriteEnv) (fs : FS) (src : SourceData)
    (source_format : String) (dest : String) (freq : Rat) :
    FS × Except ConvError Unit :=
  if source_format = "delimited_text" then
    match src with
    | .text t =>
      match datacsv t with
      | .ok m => runWrite env fs dest m freq
      | .error e => (fs, .error (.parse e))
    | _ => (fs, .error .sourceMismatch)
  else if source_format = "legacy_binary_matrix" then
    match src with
    | .matv7 vars =>
      match datamat7 vars with
      | .ok m => runWrite env fs dest m freq
      | .error e => (fs, .error (.format e))
    | _ => (fs, .error .sourceMismatch)
  else if source_format = "hdf5_binary_matrix" then
    match src with
    | .matv73 vars =>
      match datamat73 vars with
      | .ok m => runWrite env fs dest m freq
      | .error e => (fs, .error (.format e))
    | _ => (fs, .error .sourceMismatch)
  else
    (fs, .error .unsupportedFormat)

/-- A concrete stored array used by the concrete witnesses below. -/
def rawExample : SampleMatrix :=
  { rows := 2, cols := 3, ent := fun i j => F32.val ((10 * i + j : Nat) : Rat) }

/-- The end-to-end scenario input: three lines of two comma-separated
fields. -/
def csvExample : List Char :=
  "1.0,2.0\n3.0,4.0\n5.0,6.0".toList

/-- The rows the end-to-end scenario input parses to. -/
def csvRows : List (List F32) :=
  [[F32.val 1, F32.val 2], [F32.val 3, F32.val 4], [F32.val 5, F32.val 6]]

/-- Looking up a key right after setting it yields the value just set. -/
theorem lookupAssoc_setAssoc {α : Type} (l : List (String × α)) (key : String) (v : α) :
    lookupAssoc (setAssoc l key v) key = some v := by
  induction l with
  | nil => simp [setAssoc, lookupAssoc]
  | cons kv rest ih =>
    obtain ⟨k, w⟩ := kv
    by_cases h : k = key
    · subst h
      simp [setAssoc, lookupAssoc]
    · simp [setAssoc, lookupAssoc, h, ih]

/-- C1: the HDF5-backed binary matrix adapter returns the transpose of the
stored array after the float32 cast: for a stored 2-D array of shape
(C, S) the parsed SampleMatrix has shape (S, C) and entry (i, j) equal to
the stored entry (j, i). -/
theorem hdf5_adapter_transposes (vars : MatVars) (raw : SampleMatrix)
    (h : lookupAssoc vars "ans" = some raw) :
    datamat73 vars = .ok raw.T ∧
    raw.T.rows = raw.cols ∧ raw.T.cols = raw.rows ∧
    ∀ i j, raw.T.ent i j = raw.ent j i := by
  refine ⟨?_, rfl, rfl, fun i j => rfl⟩
  simp only [datamat73, h]
  rfl

/-- Witness for C1 at a concrete 2-by-3 stored array. -/
theorem hdf5_adapter_transposes_witness :
    datamat73 [("ans", rawExample)] = .ok rawExample.T ∧
    rawExample.T.rows = 3 ∧ rawExample.T.cols = 2 ∧
    rawExample.T.ent 2 1 = rawExample.ent 1 2 := by
  obtain ⟨h1, h2, h3, h4⟩ :=
    hdf5_adapter_transposes [("ans", rawExample)] rawExample rfl
  exact ⟨h1, h2, h3, h4 2 1⟩

/-- C2: round-trip - writing a matrix and a sampling frequency with the
Canonical Writer and re-reading the destination container yields the very
same matrix (same shape, identical float32 values) paired with a
sample_freq attribute equal to the given frequency. -/
theorem write_read_roundtrip (fs : FS) (path : String)
    (m : SampleMatrix) (freq : Rat) :
    readBack (writeCanonical envOK fs path m freq).fs path =
      some (m, AttrVal.real freq) := by
  show (lookupAssoc (setAssoc fs path (writeSteps m freq)) path).bind readCanonical =
    some (m, AttrVal.real freq)
  rw [lookupAssoc_setAssoc]
  rfl

/-- C3 counterexample: after a write, enumerating the attributes of the
time_data dataset yields five names - the four attributes the HDF5 library
itself attaches plus sample_freq - not a set of size 1. -/
theorem single_attribute_cex :
    attrNames (writeSteps rawExample 51200) "time_data" =
      some ["CLASS", "EXTDIM", "TITLE", "VERSION", "sample_freq"] ∧
    ((attrNames (writeSteps rawExample 51200) "time_data").getD []).length ≠ 1 := by
  exact ⟨rfl, by decide⟩

/-- C3 amended: after every write the destination holds exactly one root
dataset, and that dataset carries exactly one user-defined attribute,
named sample_freq; the full enumeration additionally shows the four system
attributes the library itself attaches. -/
theorem single_attribute_amended (m : SampleMatrix) (freq : Rat) :
    (writeSteps m freq).datasets.map Prod.fst = ["time_data"] ∧
    ∃ d, rootDataset (writeSteps m freq) "time_data" = some d ∧
      userAttrs d = [("sample_freq", AttrVal.real freq)] ∧
      d.attrs.map Prod.fst = systemAttrNames ++ ["sample_freq"] := by
  exact ⟨rfl, ⟨_, rfl, rfl, rfl⟩⟩

/-- C4 counterexample: a delimited-text input containing the unparsable
field abc does not fail; the read succeeds, with nan in that cell. -/
theorem csv_nonnumeric_cex :
    genfromtxt ("1.0,abc\n2.0,3.0".toList) =
      .ok [[F32.val 1, F32.nan], [F32.val 2, F32.val 3]] := by
  decide

/-- C4 amended: the delimited-text read fails exactly when some line's
field count differs from the first line's; a field that is not a valid
number is parsed as nan rather than raising an error; and a successful
read has one row per input line, each with the first line's field count,
never truncated or padded. -/
theorem csv_ragged_amended (text : List Char) :
    ((∃ e, genfromtxt text = .error e) ↔
      ∃ l ∈ rawLines text, nfields l ≠ nfields ((rawLines text).headD [])) ∧
    ∀ rows, genfromtxt text = .ok rows →
      rows.length = (rawLines text).length ∧
      ∀ r ∈ rows, r.length = nfields ((rawLines text).headD []) := by
  cases h : rawLines text with
  | nil =>
    have hg : genfromtxt text = .ok [] := by
      simp only [genfromtxt, h]
    constructor
    · constructor
      · rintro ⟨e, he⟩
        rw [hg] at he
        cases he
      · rintro ⟨l, hl, _⟩
        cases hl
    · intro rows hrows
      rw [hg] at hrows
      cases hrows
      exact ⟨rfl, fun r hr => absurd hr (List.not_mem_nil r)⟩
  | cons first rest =>
    cases hf : (first :: rest).find? (fun l => nfields l != nfields first) with
    | some l =>
      have hg : genfromtxt text = .error (.ragged (nfields l) (nfields first)) := by
        simp only [genfromtxt, h, hf]
      refine ⟨⟨fun _ => ?_, fun _ => ⟨_, hg⟩⟩, fun rows hrows => ?_⟩
      · refine ⟨l, ?_, ?_⟩
        · exact List.mem_of_find?_eq_some hf
        · have hp := List.find?_some hf
          rw [List.headD_cons]
          simpa using hp
      · rw [hg] at hrows
        cases hrows
    | none =>
      have hg : genfromtxt text =
          .ok ((first :: rest).map fun l => (splitOnChar ',' l).map parseField) := by
        simp only [genfromtxt, h, hf]
      have hall : ∀ l ∈ first :: rest, nfields l = nfields first := by
        intro l hl
        have hq := List.find?_eq_none.mp hf l hl
        simpa using hq
      constructor
      · constructor
        · rintro ⟨e, he⟩
          rw [hg] at he
          cases he
        · rintro ⟨l, hl, hne⟩
          rw [List.headD_cons] at hne
          exact absurd (hall l hl) hne
      · intro rows hrows
        rw [hg] at hrows
        cases hrows
        constructor
        · simp
        · intro r hr
          rw [List.headD_cons]
          obtain ⟨l, hl, rfl⟩ := List.mem_map.mp hr
          have hq := hall l hl
          simpa [nfields] using hq

/-- Witness for C4 amended: a concrete input whose second line has one
field where the first has two is rejected by the read. -/
theorem csv_ragged_amended_witness :
    ∃ e, genfromtxt ("1.0,2.0\n3.0".toList) = .error e :=
  (csv_ragged_amended ("1.0,2.0\n3.0".toList)).1.mpr
    ⟨"3.0".toList, by decide, by decide⟩

/-- C5: the writer stores the matrix as the single extensible root dataset
time_data, dtype and shape preserved exactly, with the sample_freq
attribute set to the given value; and concretely, the three-line
two-column scenario input yields a (3, 2) float32 time_data dataset with
values 1..6 and sample_freq 1000. -/
theorem writer_stores_time_data (m : SampleMatrix) (freq : Rat) :
    ((writeSteps m freq).datasets.map Prod.fst = ["time_data"] ∧
     ∃ d, rootDataset (writeSteps m freq) "time_data" = some d ∧
       d.data = m ∧ d.extensible = true ∧
       lookupAssoc d.attrs "sample_freq" = some (AttrVal.real freq)) ∧
    (genfromtxt csvExample = .ok csvRows ∧
     (SampleMatrix.ofRows csvRows).rows = 3 ∧
     (SampleMatrix.ofRows csvRows).cols = 2 ∧
     (SampleMatrix.ofRows csvRows).ent 0 0 = F32.val 1 ∧
     (SampleMatrix.ofRows csvRows).ent 0 1 = F32.val 2 ∧
     (SampleMatrix.ofRows csvRows).ent 1 0 = F32.val 3 ∧
     (SampleMatrix.ofRows csvRows).ent 1 1 = F32.val 4 ∧
     (SampleMatrix.ofRows csvRows).ent 2 0 = F32.val 5 ∧
     (SampleMatrix.ofRows csvRows).ent 2 1 = F32.val 6 ∧
     get_attr (writeSteps (SampleMatrix.ofRows csvRows) 1000)
       "time_data" "sample_freq" = some (AttrVal.real 1000)) := by
  refine ⟨⟨rfl, ⟨_, rfl, rfl, rfl, rfl⟩⟩, by decide, rfl, rfl, rfl, rfl, rfl, rfl, rfl, rfl, rfl⟩

/-- C6: format equivalence - when the three sources hold the same logical
dataset (the text parses to the given rows, the legacy container stores
the matrix in canonical orientation, the HDF5 container stores its
transpose, per each format's storage convention), the three adapters
return the identical float32 matrix, element for element with identical
shape (exact equality, which implies the stated rounding tolerance). -/
theorem format_equivalence (rowsData : List (List F32)) (text : List Char)
    (vars7 vars73 : MatVars)
    (hcsv : genfromtxt text = .ok rowsData)
    (h7 : lookupAssoc vars7 "ans" = some (SampleMatrix.ofRows rowsData))
    (h73 : lookupAssoc vars73 "ans" = some (SampleMatrix.ofRows rowsData).T) :
    datacsv text = .ok (SampleMatrix.ofRows rowsData) ∧
    datamat7 vars7 = .ok (SampleMatrix.ofRows rowsData) ∧
    datamat73 vars73 = .ok (SampleMatrix.ofRows rowsData) := by
  refine ⟨?_, ?_, ?_⟩
  · simp only [datacsv, hcsv]
    rfl
  · simp only [datamat7, h7]
    rfl
  · simp only [datamat73, h73]
    rfl

/-- Witness for C6 at a concrete two-by-two logical dataset rendered in
all three source formats. -/
theorem format_equivalence_witness :
    datacsv ("1.0,2.0\n3.0,4.0".toList) =
      .ok (SampleMatrix.ofRows [[F32.val 1, F32.val 2], [F32.val 3, F32.val 4]]) ∧
    datamat7 [("ans", SampleMatrix.ofRows [[F32.val 1, F32.val 2], [F32.val 3, F32.val 4]])] =
      .ok (SampleMatrix.ofRows [[F32.val 1, F32.val 2], [F32.val 3, F32.val 4]]) ∧
    datamat73 [("ans", (SampleMatrix.ofRows [[F32.val 1, F32.val 2], [F32.val 3, F32.val 4]]).T)] =
      .ok (SampleMatrix.ofRows [[F32.val 1, F32.val 2], [F32.val 3, F32.val 4]]) :=
  format_equivalence [[F32.val 1, F32.val 2], [F32.val 3, F32.val 4]]
    ("1.0,2.0\n3.0,4.0".toList) _ _ (by decide) rfl rfl

/-- C7: for every source format tag outside the three supported ones,
convert fails with UnsupportedFormat and returns the filesystem unchanged,
so the destination path is neither created nor truncated. -/
theorem unknown_format_rejected (env : WriteEnv) (fs : FS) (src : SourceData)
    (fmt dest : String) (freq : Rat)
    (h1 : fmt ≠ "delimited_text") (h2 : fmt ≠ "legacy_binary_matrix")
    (h3 : fmt ≠ "hdf5_binary_matrix") :
    convert env fs src fmt dest freq = (fs, .error .unsupportedFormat) := by
  simp [convert, h1, h2, h3]

/-- Witness for C7 at the spec's concrete unknown tag xyz. -/
theorem unknown_format_rejected_witness :
    convert envOK [] (.text []) "xyz" "out.h5" 0 =
      ([], .error .unsupportedFormat) :=
  unknown_format_rejected envOK [] (.text []) "xyz" "out.h5" 0
    (by decide) (by decide) (by decide)

/-- C8 counterexample: an invocation on which the dataset-creation call
fails returns control with the destination handle still open. -/
theorem writer_leaves_handle_open_cex :
    (writeCanonical { createOk := false, attrOk := true }
        [] "out.h5" rawExample 51200).handleOpen = true ∧
    (writeCanonical { createOk := false, attrOk := true }
        [] "out.h5" rawExample 51200).result ≠ .ok () := by
  exact ⟨rfl, by decide⟩

/-- C8 amended: the writer closes the destination handle on the successful
path before returning, but when a library call after opening fails, the
exception propagates and the handle is left open - the notebook has no
scoped acquisition, so the close call only runs on the straight-line
path. -/
theorem writer_close_behaviour (env : WriteEnv) (fs : FS) (path : String)
    (m : SampleMatrix) (freq : Rat) :
    ((writeCanonical env fs path m freq).result = .ok () →
      (writeCanonical env fs path m freq).handleOpen = false) ∧
    ((writeCanonical env fs path m freq).result ≠ .ok () →
      (writeCanonical env fs path m freq).handleOpen = true) := by
  cases hc : env.createOk <;> cases ha : env.attrOk <;>
    simp [writeCanonical, hc, ha]

/-- Witness for C8 amended: closed handle after a successful run, open
handle after a run whose creation call fails. -/
theorem writer_close_behaviour_witness :
    (writeCanonical envOK [] "out.h5" rawExample 51200).handleOpen = false ∧
    (writeCanonical { createOk := false, attrOk := true }
        [] "out.h5" rawExample 51200).handleOpen = true :=
  ⟨(writer_close_behaviour envOK [] "out.h5" rawExample 51200).1 rfl,
   (writer_close_behaviour { createOk := false, attrOk := true }
      [] "out.h5" rawExample 51200).2 (by decide)⟩

/-- C9: the writer performs no validation of the sampling frequency: for
every value, zero and negative values included, the write succeeds and the
stored sample_freq attribute is exactly the given value. -/
theorem no_freq_validation (fs : FS) (path : String)
    (m : SampleMatrix) (freq : Rat) :
    (writeCanonical envOK fs path m freq).result = .ok () ∧
    get_attr (writeSteps m freq) "time_data" "sample_freq" =
      some (AttrVal.real freq) := by
  exact ⟨rfl, rfl⟩

/-- C10: the destination is opened in truncating write mode: when a file
already exists at the destination path it is silently overwritten - the
final content is exactly the newly written container, independent of the
old one - and no invocation fails with AlreadyExists. -/
theorem overwrite_on_existing (fs : FS) (path : String) (old : H5File)
    (m : SampleMatrix) (freq : Rat) (_h : lookupFS fs path = some old) :
    lookupFS (writeCanonical envOK fs path m freq).fs path =
      some (writeSteps m freq) ∧
    ∀ env : WriteEnv,
      (writeCanonical env fs path m freq).result ≠ .error .alreadyExists := by
  constructor
  · show lookupAssoc (setAssoc fs path (writeSteps m freq)) path =
      some (writeSteps m freq)
    exact lookupAssoc_setAssoc fs path (writeSteps m freq)
  · intro env
    cases hc : env.createOk <;> cases ha : env.attrOk <;>
      simp [writeCanonical, hc, ha]

/-- Witness for C10: a destination path already holding an old container is
silently overwritten by the new content, with no AlreadyExists failure. -/
theorem overwrite_on_existing_witness :
    lookupFS (writeCanonical envOK [("out.h5", tables_open_file_w "old")]
        "out.h5" rawExample 51200).fs "out.h5" =
      some (writeSteps rawExample 51200) ∧
    (writeCanonical { createOk := false, attrOk := true }
        [("out.h5", tables_open_file_w "old")]
        "out.h5" rawExample 51200).result ≠ .error .alreadyExists :=
  ⟨(overwrite_on_existing [("out.h5", tables_open_file_w "old")] "out.h5"
      (tables_open_file_w "old") rawExample 51200 rfl).1,
   (overwrite_on_existing [("out.h5", tables_open_file_w "old")] "out.h5"
      (tables_open_file_w "old") rawExample 51200 rfl).2
      { createOk := false, attrOk := true }⟩

end AcoularConvert
